import Mathlib

/-!
Verification of the game-cart backend (a Flask service in `game_cart/app.py`).

The request handlers are translated directly from `app.py`.  The persistence
layers (`User` account store, `Games` cart store) and the catalog client
(`get_game_info`) live in modules that are not part of the provided source
tree; those are modelled from the specification and marked as such in their
doc comments.  Request bodies are association lists of JSON values, Python
exceptions carry a type tag (ValueError vs anything else) together with their
`str(e)` message, and `jsonify` is partial: it fails on non-serialisable
arguments such as Python sets.
-/

/-- JSON values that can appear in a request body field. -/
inductive JValue where
  | null
  | str (s : String)
  | num (n : Int)
deriving DecidableEq, Repr

/-- Python truthiness of a JSON value: `None`, `""` and `0` are falsy. -/
def JValue.truthy : JValue → Bool
  | .null => false
  | .str s => s != ""
  | .num n => n != 0

/-- Python `f"{v}"` rendering of a JSON value (`None` prints as `None`). -/
def pyStr : JValue → String
  | .null => "None"
  | .str s => s
  | .num n => toString n

/-- A Python exception, distinguishing `ValueError` (which some handlers catch
separately) from every other exception type, with its `str(e)` message. -/
inductive PyExc where
  | valueError (msg : String)
  | otherError (msg : String)
deriving DecidableEq, Repr

/-- The `str(e)` text of an exception. -/
def PyExc.msg : PyExc → String
  | .valueError m => m
  | .otherError m => m

/-- The numeric value of a decimal digit character, if it is one. -/
def digitVal (c : Char) : Option Nat :=
  if c.isDigit then some (c.toNat - 48) else none

/-- Accumulate a run of decimal digits; fails on any non-digit. -/
def parseNatAux : List Char → Nat → Option Nat
  | [], acc => some acc
  | c :: rest, acc =>
    match digitVal c with
    | some d => parseNatAux rest (acc * 10 + d)
    | none => none

/-- Python `int(s)` on a string: an optional minus sign followed by at least
one decimal digit; anything else fails (Python additionally tolerates
whitespace, a plus sign and underscores, which no claim exercises). -/
def pyParseInt (s : String) : Option Int :=
  match s.data with
  | '-' :: rest =>
    if rest = [] then none else (parseNatAux rest 0).map (fun n => -(n : Int))
  | cs =>
    if cs = [] then none else (parseNatAux cs 0).map (fun n => (n : Int))

/-- Python `int(v)`: identity on numbers, parse for strings
(raising `ValueError` on a non-numeric literal), `TypeError` on `None`. -/
def pyInt : JValue → Except PyExc Int
  | .num n => .ok n
  | .str s =>
    match pyParseInt s with
    | some n => .ok n
    | none => .error (.valueError ("invalid literal for int() with base 10: '" ++ s ++ "'"))
  | .null => .error (.otherError "int() argument must be a string, a bytes-like object or a real number, not 'NoneType'")

/-- A request body: a JSON object as an association list. -/
def Body := List (String × JValue)

/-- Python `data.get(k)`: the value at key `k`, or `None` when absent. -/
def jget (data : Body) (k : String) : JValue :=
  match data.find? (fun kv => kv.fst == k) with
  | some kv => kv.snd
  | none => .null

/-- Python `k in data`. -/
def hasKey (data : Body) (k : String) : Bool :=
  data.any (fun kv => kv.fst == k)

/-- An argument passed to `jsonify`: handlers build dicts, except the 500
branch of `login`, which builds a set literal. -/
inductive PyVal where
  | dict (kvs : List (String × JValue))
  | set (elems : List String)
deriving DecidableEq, Repr

/-- Flask `jsonify`: serialises dicts; raises `TypeError` on a set
(sets are not JSON serialisable), modelled as `none`. -/
def pyJsonify : PyVal → Option (List (String × JValue))
  | .dict kvs => some kvs
  | .set _ => none

/-- The externally observable outcome of a handler: an HTTP response with a
status code and a JSON body, or a crash (an exception escaping the handler
while the response was being built). -/
inductive HandlerOutcome where
  | resp (status : Nat) (body : List (String × JValue))
  | crash
deriving DecidableEq, Repr

/-- Flask `make_response(jsonify(v), status)`; a serialisation failure inside
`jsonify` escapes the handler as a crash. -/
def make_response (v : PyVal) (status : Nat) : HandlerOutcome :=
  match pyJsonify v with
  | some b => .resp status b
  | none => .crash

/-- The status code of an outcome, when a response was produced at all. -/
def statusOf : HandlerOutcome → Option Nat
  | .resp s _ => some s
  | .crash => none

/-- Modelled from the spec: the Password Module (`hash_password`) is not in
the provided source.  Per §4.1 it is a deterministic salted one-way
derivation; it is modelled as the injective pairing of password and salt,
which realises determinism and idealised collision-freedom. -/
def hash_password (password : String) (salt : Nat) : String × Nat :=
  (password, salt)

/-- A persisted user row: username, salt, and salted password hash. -/
structure UserRec where
  username : String
  salt : Nat
  hashed : String × Nat
deriving DecidableEq, Repr

/-- Modelled from the spec: `User.create_user` (the Account Store) is not in
the provided source.  Per §4.2 it fails on empty username or password
(`InvalidInput`) and on an existing username (`DuplicateUser`), and otherwise
persists a new row with a fresh salt.  `fail` injects a backend
`StorageError` (§7). -/
def User.create_user (fail : Option String) (accounts : List UserRec)
    (u p : String) (salt : Nat) : Except PyExc (List UserRec) :=
  match fail with
  | some m => .error (.otherError m)
  | none =>
    if u = "" ∨ p = "" then .error (.valueError "Invalid username or password")
    else if accounts.any (fun r => r.username == u) then
      .error (.valueError ("User " ++ u ++ " already exists"))
    else .ok (accounts ++ [⟨u, salt, hash_password p salt⟩])

/-- Modelled from the spec: `User.check_password` is not in the provided
source.  Per §4.2 it verifies the supplied password against the stored
salt and hash; per the spec's note that the handlers conflate "no such
user" and "wrong password" into one 401, it returns false for a
nonexistent username. -/
def User.check_password (accounts : List UserRec) (u p : String) : Bool :=
  match accounts.find? (fun r => r.username == u) with
  | none => false
  | some r => decide (hash_password p r.salt = r.hashed)

/-- Modelled from the spec: `User.update_password` is not in the provided
source.  Per §4.2 it fails with `UserNotFound` (a `ValueError`, which the
handler maps to 401) when the username does not exist, and otherwise
regenerates salt and hash and persists them. -/
def User.update_password (fail : Option String) (accounts : List UserRec)
    (u p : String) (salt : Nat) : Except PyExc (List UserRec) :=
  match fail with
  | some m => .error (.otherError m)
  | none =>
    if accounts.any (fun r => r.username == u) then
      .ok (accounts.map (fun r =>
        if r.username == u then ⟨u, salt, hash_password p salt⟩ else r))
    else .error (.valueError ("user " ++ u ++ " does not exist"))

/-- A persisted game row (also the shape of a catalog record): catalog id,
name and price.  The price is the catalog-reported decimal, modelled
exactly as a rational. -/
structure Game where
  id : Int
  name : String
  price : ℚ
deriving DecidableEq, Repr

/-- Modelled from the spec: `Games.create_game` (the Cart Store) is not in
the provided source.  Per §4.3 it fails with `InvalidInput` (a
`ValueError`) when the id is not positive or the price is negative; per
§3 the id is the primary key, so a duplicate insert surfaces as a
database integrity error (not a `ValueError`).  `fail` injects a backend
`StorageError` (§7). -/
def Games.create_game (fail : Option String) (store : List Game)
    (id : Int) (name : String) (price : ℚ) : Except PyExc (List Game) :=
  match fail with
  | some m => .error (.otherError m)
  | none =>
    if id ≤ 0 ∨ price < 0 then
      .error (.valueError "id must be a positive integer and price non-negative")
    else if store.any (fun g => g.id == id) then
      .error (.otherError "UNIQUE constraint failed: games.id")
    else .ok (store ++ [⟨id, name, price⟩])

/-- Modelled from the spec: `Games.delete_game` is not in the provided
source.  Per §4.4 and §9 it raises a `ValueError` whose message is exactly
the text the handler string-compares against when no row with the id
exists, and otherwise removes the row.  `fail` injects a backend
`StorageError` (§7). -/
def Games.delete_game (fail : Option String) (store : List Game)
    (id : Int) : Except PyExc (List Game) :=
  match fail with
  | some m => .error (.otherError m)
  | none =>
    if store.any (fun g => g.id == id) then
      .ok (store.filter (fun g => g.id != id))
    else .error (.valueError ("Game with id " ++ toString id ++ " not found"))

/-- Modelled from the spec: `Games.get_all_games` is not in the provided
source.  Per §4.3 it returns a snapshot of all persisted games. -/
def Games.get_all_games (store : List Game) : List Game := store

/-- Handler for POST /create-account (`create_user` in `app.py`): 400 when
username or password is falsy; otherwise calls `User.create_user` and
returns 201, mapping every exception to a 500 whose body carries
`str(e)`.  Returns the outcome together with the resulting account
table. -/
def create_user (fail : Option String) (accounts : List UserRec) (salt : Nat)
    (body : Body) : HandlerOutcome × List UserRec :=
  let uv := jget body "username"
  let pv := jget body "password"
  if ¬ uv.truthy ∨ ¬ pv.truthy then
    (make_response (.dict [("error", .str "Invalid input, both username and password are required")]) 400, accounts)
  else
    match uv, pv with
    | .str u, .str p =>
      match User.create_user fail accounts u p salt with
      | .ok accounts' =>
        (make_response (.dict [("status", .str "user added"), ("username", .str u)]) 201, accounts')
      | .error e =>
        (make_response (.dict [("error", .str e.msg)]) 500, accounts)
    | _, _ =>
      (make_response (.dict [("error", .str "TypeError")]) 500, accounts)

/-- Handler for POST /login (`login` in `app.py`), abstracted over the
outcome of the `User.check_password` call: 400 when the body is falsy or a
key is absent; 401 on a false check; 200 on a true check; and on an
exception the 500 branch passes a set literal to `jsonify`, exactly as the
source does. -/
def login_core : Option Body → (JValue → JValue → Except String Bool) → HandlerOutcome
  | none, _ =>
    make_response (.dict [("error", .str "Invalid input, both username and password are required")]) 400
  | some data, check =>
    if data.isEmpty ∨ ¬ hasKey data "username" ∨ ¬ hasKey data "password" then
      make_response (.dict [("error", .str "Invalid input, both username and password are required")]) 400
    else
      let uv := jget data "username"
      let pv := jget data "password"
      match check uv pv with
      | .ok false =>
        make_response (.dict [("error", .str "Invalid username or password")]) 401
      | .ok true =>
        make_response (.dict [("message", .str ("User " ++ pyStr uv ++ " logged in successfully."))]) 200
      | .error _ =>
        make_response (.set ["error", "An unexpected error occurred."]) 500

/-- Handler for POST /login composed with the account store: the check
returns a boolean on string credentials and raises a `TypeError` on
non-string ones. -/
def login (accounts : List UserRec) (body : Option Body) : HandlerOutcome :=
  login_core body (fun uv pv =>
    match uv, pv with
    | .str u, .str p => .ok (User.check_password accounts u p)
    | _, _ => .error "TypeError")

/-- Handler for POST /update-password (`update_password` in `app.py`): 400
when username or newPassword is falsy; 401 on the `ValueError` raised for
an unknown user; 201 on success; 500 with `str(e)` otherwise. -/
def update_password (fail : Option String) (accounts : List UserRec)
    (salt : Nat) (body : Body) : HandlerOutcome × List UserRec :=
  let uv := jget body "username"
  let pv := jget body "newPassword"
  if ¬ uv.truthy ∨ ¬ pv.truthy then
    (make_response (.dict [("error", .str "Invalid input, both username and new password are required")]) 400, accounts)
  else
    match uv, pv with
    | .str u, .str p =>
      match User.update_password fail accounts u p salt with
      | .ok accounts' =>
        (make_response (.dict [("status", .str "password changed"), ("username", .str u)]) 201, accounts')
      | .error (.valueError _) =>
        (make_response (.dict [("error", .str ("user " ++ u ++ " does not exist"))]) 401, accounts)
      | .error (.otherError m) =>
        (make_response (.dict [("error", .str m)]) 500, accounts)
    | _, _ =>
      (make_response (.dict [("error", .str "TypeError")]) 500, accounts)

/-- Handler for POST /add-game (`add_game` in `app.py`): a falsy id raises
`ValueError("An id must be specified.")`, caught by the `ValueError`
branch as a 400; the id is then converted with `int`, the catalog is
consulted (`get_game_info` is passed in as a function, since the catalog
client is an external collaborator), an empty catalog result gives 404,
and otherwise the catalog-reported id, name and price are persisted with
`Games.create_game` for a 201.  `ValueError`s map to 400 and all other
exceptions to 500, each with `str(e)` as the body. -/
def add_game (fail : Option String) (catalog : Int → Except String (Option Game))
    (store : List Game) (body : Body) : HandlerOutcome × List Game :=
  let idv := jget body "id"
  if ¬ idv.truthy then
    (make_response (.dict [("error", .str "An id must be specified.")]) 400, store)
  else
    match pyInt idv with
    | .error (.valueError m) => (make_response (.dict [("error", .str m)]) 400, store)
    | .error (.otherError m) => (make_response (.dict [("error", .str m)]) 500, store)
    | .ok n =>
      match catalog n with
      | .error m => (make_response (.dict [("error", .str m)]) 500, store)
      | .ok none =>
        (make_response (.dict [("error", .str ("id " ++ toString n ++ " does not correspond to a game"))]) 404, store)
      | .ok (some g) =>
        match Games.create_game fail store g.id g.name g.price with
        | .ok store' =>
          (make_response (.dict [("status", .str "game added"), ("game", .str g.name)]) 201, store')
        | .error (.valueError m) => (make_response (.dict [("error", .str m)]) 400, store)
        | .error (.otherError m) => (make_response (.dict [("error", .str m)]) 500, store)

/-- The `except ValueError` branch of the /delete-game handler: the caught
message is string-compared against `f"Game with id {id} not found"`,
rendered with whatever the `id` binding holds at the time of the
exception (`idRepr`); a match gives 404, anything else 400. -/
def deleteValueErrorBranch (m idRepr : String) : HandlerOutcome :=
  if m = "Game with id " ++ idRepr ++ " not found" then
    make_response (.dict [("error", .str m)]) 404
  else
    make_response (.dict [("error", .str m)]) 400

/-- Handler for DELETE /delete-game (`delete_game` in `app.py`): a falsy id
raises `ValueError("An id must be specified.")`; the id is converted with
`int`; `Games.delete_game` removes the row or raises; `ValueError`s land
in `deleteValueErrorBranch` (404 only when the message matches the
not-found text for the current `id` binding), other exceptions give 500
with `str(e)`. -/
def delete_game (fail : Option String) (store : List Game)
    (body : Body) : HandlerOutcome × List Game :=
  let idv := jget body "id"
  if ¬ idv.truthy then
    (deleteValueErrorBranch "An id must be specified." (pyStr idv), store)
  else
    match pyInt idv with
    | .error (.valueError m) => (deleteValueErrorBranch m (pyStr idv), store)
    | .error (.otherError m) => (make_response (.dict [("error", .str m)]) 500, store)
    | .ok n =>
      match Games.delete_game fail store n with
      | .ok store' =>
        (make_response (.dict [("status", .str "game deleted")]) 200, store')
      | .error (.valueError m) => (deleteValueErrorBranch m (toString n), store)
      | .error (.otherError m) => (make_response (.dict [("error", .str m)]) 500, store)

/-- The computation of GET /get-total-price (`get_total_price` in `app.py`):
`sum([game["price"] for game in games])` over
`Games.get_all_games()`. -/
def get_total_price (store : List Game) : ℚ :=
  ((Games.get_all_games store).map (fun g => g.price)).sum

/-- If the predicate holds nowhere in `l`, searching `l ++ [r]` finds `r`
exactly when the predicate holds of `r`. -/
lemma find?_append_singleton {α : Type} (l : List α) (p : α → Bool) (r : α)
    (h : l.any p = false) :
    (l ++ [r]).find? p = if p r then some r else none := by
  induction l with
  | nil =>
    cases hpr : p r <;> simp [List.find?, hpr]
  | cons a l ih =>
    simp only [List.any_cons, Bool.or_eq_false_iff] at h
    have ha : ¬ p a = true := by simp [h.1]
    rw [List.cons_append, List.find?_cons_of_neg _ ha, ih h.2]

/-- C1: for every valid (nonempty) username and password, a successful
`create_user` followed by `check_password` with the same password returns
true, and `check_password` with any different password returns false. -/
theorem C1_create_then_check (accounts : List UserRec) (u p : String)
    (salt : Nat) (accounts' : List UserRec) (hu : u ≠ "") (hp : p ≠ "")
    (h : User.create_user none accounts u p salt = .ok accounts') :
    User.check_password accounts' u p = true ∧
      ∀ q : String, q ≠ p → User.check_password accounts' u q = false := by
  unfold User.create_user at h
  rw [if_neg (by simp [hu, hp])] at h
  by_cases hany : (accounts.any fun r => r.username == u) = true
  · rw [if_pos hany] at h
    exact absurd h (by simp)
  · rw [if_neg hany] at h
    have hacc : accounts' = accounts ++ [⟨u, salt, hash_password p salt⟩] := by
      cases h; rfl
    subst hacc
    have hfind := find?_append_singleton accounts (fun r => r.username == u)
      ⟨u, salt, hash_password p salt⟩ (by simp_all)
    simp only [beq_self_eq_true, if_true] at hfind
    constructor
    · unfold User.check_password
      rw [hfind]
      simp [hash_password]
    · intro q hq
      unfold User.check_password
      rw [hfind]
      simp [hash_password, hq]

/-- Witness for C1 at a concrete store and credentials. -/
theorem C1_witness :
    User.check_password [⟨"alice", 0, ("pw1", 0)⟩] "alice" "pw1" = true ∧
    User.check_password [⟨"alice", 0, ("pw1", 0)⟩] "alice" "pw2" = false := by
  have h := C1_create_then_check [] "alice" "pw1" 0 [⟨"alice", 0, ("pw1", 0)⟩]
    (by decide) (by decide) rfl
  exact ⟨h.1, h.2 "pw2" (by decide)⟩

/-- C2: the total price is the sum of the prices of the games currently in
the cart, it is 0 for the empty cart, and it is invariant under any
permutation of the cart contents (hence of the insertion order, which
determines the row order). -/
theorem C2_total_price (s s₁ s₂ : List Game) :
    get_total_price s = (s.map (fun g => g.price)).sum ∧
    get_total_price ([] : List Game) = 0 ∧
    (s₁.Perm s₂ → get_total_price s₁ = get_total_price s₂) := by
  refine ⟨rfl, rfl, fun h => ?_⟩
  unfold get_total_price Games.get_all_games
  exact (h.map (fun g => g.price)).sum_eq

/-- Witness for C2 at two concrete carts that are permutations of each
other. -/
theorem C2_witness :
    get_total_price [⟨1, "Chess", 2⟩, ⟨2, "Go", 3⟩] =
      get_total_price [⟨2, "Go", 3⟩, ⟨1, "Chess", 2⟩] :=
  (C2_total_price [] [⟨1, "Chess", 2⟩, ⟨2, "Go", 3⟩]
    [⟨2, "Go", 3⟩, ⟨1, "Chess", 2⟩]).2.2 (List.Perm.swap _ _ _)

/-- A username matching no row in the account table fails the password
check. -/
lemma check_password_of_absent (accounts : List UserRec) (u p : String)
    (h : accounts.all (fun r => r.username != u) = true) :
    User.check_password accounts u p = false := by
  unfold User.check_password
  have hf : accounts.find? (fun r => r.username == u) = none := by
    rw [List.find?_eq_none]
    intro x hx
    have := List.all_eq_true.mp h x hx
    simpa using this
  rw [hf]

/-- C5: a login with a nonexistent username and a login with an existing
username but a wrong password produce the same observable response: a 401
with the same error body. -/
theorem C5_login_indistinguishable (accounts : List UserRec)
    (u1 p1 u2 p2 : String)
    (h1 : accounts.all (fun r => r.username != u1) = true)
    (_hex : accounts.any (fun r => r.username == u2) = true)
    (h2 : User.check_password accounts u2 p2 = false) :
    login accounts (some [("username", .str u1), ("password", .str p1)]) =
      HandlerOutcome.resp 401 [("error", .str "Invalid username or password")] ∧
    login accounts (some [("username", .str u2), ("password", .str p2)]) =
      HandlerOutcome.resp 401 [("error", .str "Invalid username or password")] := by
  have hc1 := check_password_of_absent accounts u1 p1 h1
  unfold login login_core
  constructor
  · simp [jget, hasKey, List.find?, hc1, make_response, pyJsonify]
  · simp [jget, hasKey, List.find?, h2, make_response, pyJsonify]

/-- Witness for C5 at a concrete store with one user. -/
theorem C5_witness :
    login [⟨"bob", 0, ("pw", 0)⟩]
        (some [("username", .str "alice"), ("password", .str "x")]) =
      HandlerOutcome.resp 401 [("error", .str "Invalid username or password")] ∧
    login [⟨"bob", 0, ("pw", 0)⟩]
        (some [("username", .str "bob"), ("password", .str "wrong")]) =
      HandlerOutcome.resp 401 [("error", .str "Invalid username or password")] :=
  C5_login_indistinguishable [⟨"bob", 0, ("pw", 0)⟩] "alice" "x" "bob" "wrong"
    (by decide) (by decide) (by decide)

/-- C8: whenever the password check raises, the login handler's 500 branch
passes a set literal to `jsonify`, whose serialisation fails, so the
response construction crashes and the documented 500 body is never
produced. -/
theorem C8_login_500_crashes (data : Body)
    (check : JValue → JValue → Except String Bool) (e : String)
    (hu : hasKey data "username" = true) (hp : hasKey data "password" = true)
    (hc : check (jget data "username") (jget data "password") = .error e) :
    login_core (some data) check = HandlerOutcome.crash ∧
      pyJsonify (PyVal.set ["error", "An unexpected error occurred."]) = none := by
  refine ⟨?_, rfl⟩
  have hne : data ≠ [] := by
    intro hd
    rw [hd] at hu
    simp [hasKey] at hu
  simp only [login_core]
  rw [if_neg (by simp [hu, hp, hne])]
  simp only [hc]
  rfl

/-- Witness for C8 at a concrete body and a raising check. -/
theorem C8_witness :
    login_core (some [("username", .str "alice"), ("password", .str "pw")])
        (fun _ _ => Except.error "boom") = HandlerOutcome.crash ∧
      pyJsonify (PyVal.set ["error", "An unexpected error occurred."]) = none :=
  C8_login_500_crashes [("username", .str "alice"), ("password", .str "pw")]
    (fun _ _ => Except.error "boom") "boom" (by decide) (by decide) rfl

/-- C10: input validation is asymmetric. /create-account responds 400
whenever username or password is falsy (absent, hence `None`, or the empty
string); /login never responds 400 once both keys are present in the
body; and a login whose password is present but empty proceeds to the
password check, yielding 200 or 401 according to its result. -/
theorem C10_validation_asymmetry :
    (∀ (fail : Option String) (accounts : List UserRec) (salt : Nat) (body : Body),
      (¬ (jget body "username").truthy ∨ ¬ (jget body "password").truthy) →
      create_user fail accounts salt body =
        (HandlerOutcome.resp 400 [("error", .str "Invalid input, both username and password are required")], accounts)) ∧
    (∀ (accounts : List UserRec) (data : Body),
      hasKey data "username" = true → hasKey data "password" = true →
      statusOf (login accounts (some data)) ≠ some 400) ∧
    (∀ (accounts : List UserRec) (u : String),
      login accounts (some [("username", .str u), ("password", .str "")]) =
        if User.check_password accounts u "" then
          HandlerOutcome.resp 200 [("message", .str ("User " ++ u ++ " logged in successfully."))]
        else
          HandlerOutcome.resp 401 [("error", .str "Invalid username or password")]) := by
  refine ⟨?_, ?_, ?_⟩
  · intro fail accounts salt body hfalsy
    unfold create_user
    rw [if_pos hfalsy]
    rfl
  · intro accounts data hu hp
    have hne : data ≠ [] := by
      intro hd
      rw [hd] at hu
      simp [hasKey] at hu
    unfold login
    simp only [login_core]
    rw [if_neg (by simp [hu, hp, hne])]
    cases hju : jget data "username" <;> cases hjp : jget data "password" <;>
      simp only [hju, hjp, make_response, pyJsonify, statusOf] <;>
      first
        | (rename_i u2 p2
           cases User.check_password accounts u2 p2 <;> simp)
        | simp
  · intro accounts u
    unfold login
    simp only [login_core]
    cases hc : User.check_password accounts u "" <;>
      simp [jget, hasKey, List.find?, hc, make_response, pyJsonify, pyStr]

/-- Witness for C10: a create-account request with an empty username gets a
400, and a login with an empty password present gets through to the check
and yields a 401. -/
theorem C10_witness :
    create_user none [] 0 [("username", .str ""), ("password", .str "pw")] =
      (HandlerOutcome.resp 400 [("error", .str "Invalid input, both username and password are required")], []) ∧
    login [] (some [("username", .str "a"), ("password", .str "")]) =
      HandlerOutcome.resp 401 [("error", .str "Invalid username or password")] := by
  constructor
  · exact C10_validation_asymmetry.1 none [] 0 _ (by simp [jget, List.find?, JValue.truthy])
  · have h := C10_validation_asymmetry.2.2 [] "a"
    simpa [User.check_password, List.find?] using h

/-- C7: the update-password handler returns 400 when username or newPassword
is falsy, 401 exactly when the username does not exist (and the store is
reachable), 201 with the status and username on success, and 500 carrying
the failure message on a storage failure. -/
theorem C7_update_password_codes :
    (∀ (fail : Option String) (accounts : List UserRec) (salt : Nat) (body : Body),
      (¬ (jget body "username").truthy ∨ ¬ (jget body "newPassword").truthy) →
      update_password fail accounts salt body =
        (HandlerOutcome.resp 400 [("error", .str "Invalid input, both username and new password are required")], accounts)) ∧
    (∀ (accounts : List UserRec) (salt : Nat) (body : Body) (u p : String),
      jget body "username" = .str u → jget body "newPassword" = .str p →
      u ≠ "" → p ≠ "" →
      ((accounts.any fun r => r.username == u) = false →
        update_password none accounts salt body =
          (HandlerOutcome.resp 401 [("error", .str ("user " ++ u ++ " does not exist"))], accounts)) ∧
      ((accounts.any fun r => r.username == u) = true →
        update_password none accounts salt body =
          (HandlerOutcome.resp 201 [("status", .str "password changed"), ("username", .str u)],
            accounts.map (fun r => if r.username == u then ⟨u, salt, hash_password p salt⟩ else r)))) ∧
    (∀ (m : String) (accounts : List UserRec) (salt : Nat) (body : Body) (u p : String),
      jget body "username" = .str u → jget body "newPassword" = .str p →
      u ≠ "" → p ≠ "" →
      update_password (some m) accounts salt body =
        (HandlerOutcome.resp 500 [("error", .str m)], accounts)) := by
  refine ⟨?_, ?_, ?_⟩
  · intro fail accounts salt body hfalsy
    unfold update_password
    rw [if_pos hfalsy]
    rfl
  · intro accounts salt body u p hju hjp hu hp
    constructor
    · intro hany
      unfold update_password
      rw [if_neg (by simp [hju, hjp, JValue.truthy, hu, hp])]
      simp only [hju, hjp]
      unfold User.update_password
      simp only [hany]
      rfl
    · intro hany
      unfold update_password
      rw [if_neg (by simp [hju, hjp, JValue.truthy, hu, hp])]
      simp only [hju, hjp]
      unfold User.update_password
      simp only [hany]
      rfl
  · intro m accounts salt body u p hju hjp hu hp
    unfold update_password
    rw [if_neg (by simp [hju, hjp, JValue.truthy, hu, hp])]
    simp only [hju, hjp]
    rfl

/-- Witness for C7 at a concrete store: 401 for an unknown user and 201 for
an existing one. -/
theorem C7_witness :
    update_password none [⟨"bob", 0, ("pw", 0)⟩] 1
        [("username", .str "eve"), ("newPassword", .str "x")] =
      (HandlerOutcome.resp 401 [("error", .str "user eve does not exist")], [⟨"bob", 0, ("pw", 0)⟩]) ∧
    update_password none [⟨"bob", 0, ("pw", 0)⟩] 1
        [("username", .str "bob"), ("newPassword", .str "x")] =
      (HandlerOutcome.resp 201 [("status", .str "password changed"), ("username", .str "bob")],
        [⟨"bob", 1, ("x", 1)⟩]) := by
  constructor
  · exact (C7_update_password_codes.2.1 [⟨"bob", 0, ("pw", 0)⟩] 1 _ "eve" "x"
      (by simp [jget, List.find?]) (by simp [jget, List.find?])
      (by decide) (by decide)).1 (by decide)
  · have h := (C7_update_password_codes.2.1 [⟨"bob", 0, ("pw", 0)⟩] 1
      [("username", .str "bob"), ("newPassword", .str "x")] "bob" "x"
      (by simp [jget, List.find?]) (by simp [jget, List.find?])
      (by decide) (by decide)).2 (by decide)
    simpa [hash_password] using h

/-- The `int()` parse-failure message can never equal the not-found message
the delete handler string-compares against, so a bad literal is always a
400 and never a 404. -/
lemma parse_error_ne_not_found (s : String) :
    ("invalid literal for int() with base 10: '" ++ s ++ "'") ≠
      ("Game with id " ++ s ++ " not found") := by
  intro h
  have hl := congrArg String.length h
  simp only [String.length_append] at hl
  have h1 : String.length "invalid literal for int() with base 10: '" = 41 := rfl
  have h2 : String.length "'" = 1 := rfl
  have h3 : String.length "Game with id " = 13 := rfl
  have h4 : String.length " not found" = 10 := rfl
  omega

/-- C4: the delete handler returns 400 when the id is missing, 200 with
the deletion status on success, 404 exactly when no game with the id
exists, 500 carrying the message on a storage failure, and 400 (never
404) on an unparsable id. -/
theorem C4_delete_game_codes :
    (∀ (fail : Option String) (store : List Game) (body : Body),
      jget body "id" = .null →
      delete_game fail store body =
        (HandlerOutcome.resp 400 [("error", .str "An id must be specified.")], store)) ∧
    (∀ (store : List Game) (body : Body) (n : Int),
      jget body "id" = .num n → n ≠ 0 →
      ((store.any fun g => g.id == n) = true →
        delete_game none store body =
          (HandlerOutcome.resp 200 [("status", .str "game deleted")],
            store.filter (fun g => g.id != n))) ∧
      ((store.any fun g => g.id == n) = false →
        delete_game none store body =
          (HandlerOutcome.resp 404 [("error", .str ("Game with id " ++ toString n ++ " not found"))],
            store))) ∧
    (∀ (m : String) (store : List Game) (body : Body) (n : Int),
      jget body "id" = .num n → n ≠ 0 →
      delete_game (some m) store body =
        (HandlerOutcome.resp 500 [("error", .str m)], store)) ∧
    (∀ (fail : Option String) (store : List Game) (body : Body) (s : String),
      jget body "id" = .str s → s ≠ "" → pyParseInt s = none →
      delete_game fail store body =
        (HandlerOutcome.resp 400
          [("error", .str ("invalid literal for int() with base 10: '" ++ s ++ "'"))], store)) := by
  refine ⟨?_, ?_, ?_, ?_⟩
  · intro fail store body hj
    unfold delete_game
    rw [hj]
    rw [if_pos (by decide)]
    unfold deleteValueErrorBranch
    rw [if_neg (by decide)]
    rfl
  · intro store body n hj hn
    have ht : (JValue.num n).truthy = true := by simp [JValue.truthy, hn]
    constructor
    · intro hany
      unfold delete_game
      rw [hj]
      rw [if_neg (by simp [ht])]
      simp only [pyInt]
      unfold Games.delete_game
      simp only [hany]
      rfl
    · intro hany
      unfold delete_game
      rw [hj]
      rw [if_neg (by simp [ht])]
      simp only [pyInt]
      unfold Games.delete_game
      simp only [hany]
      simp [deleteValueErrorBranch, make_response, pyJsonify]
  · intro m store body n hj hn
    unfold delete_game
    rw [hj]
    rw [if_neg (by simp [JValue.truthy, hn])]
    simp only [pyInt]
    rfl
  · intro fail store body s hj hs hparse
    unfold delete_game
    rw [hj]
    rw [if_neg (by simp [JValue.truthy, hs])]
    simp only [pyInt, hparse]
    unfold deleteValueErrorBranch
    rw [if_neg (by simpa [pyStr] using parse_error_ne_not_found s)]
    rfl

/-- Witness for C4 at concrete carts: a successful delete, a not-found
delete, and a missing id. -/
theorem C4_witness :
    delete_game none [⟨1, "Chess", 2⟩] [("id", .num 1)] =
      (HandlerOutcome.resp 200 [("status", .str "game deleted")], []) ∧
    delete_game none [] [("id", .num 1)] =
      (HandlerOutcome.resp 404 [("error", .str "Game with id 1 not found")], []) ∧
    delete_game none [] [] =
      (HandlerOutcome.resp 400 [("error", .str "An id must be specified.")], []) := by
  refine ⟨?_, ?_, ?_⟩
  · have h := (C4_delete_game_codes.2.1 [⟨1, "Chess", 2⟩] [("id", .num 1)] 1
      (by simp [jget, List.find?]) (by decide)).1 (by decide)
    simpa using h
  · have h := (C4_delete_game_codes.2.1 [] [("id", .num 1)] 1
      (by simp [jget, List.find?]) (by decide)).2 (by decide)
    simpa using h
  · exact C4_delete_game_codes.1 none [] [] (by simp [jget, List.find?])

/-- C3 counterexample: a concrete request the create-account handler answers
with a 500 whose body is exactly the internal exception text (a duplicate
username), not a generic message. -/
theorem C3_counterexample :
    User.create_user none [⟨"alice", 0, ("pw1", 0)⟩] "alice" "pw1" 0 =
      Except.error (PyExc.valueError "User alice already exists") ∧
    create_user none [⟨"alice", 0, ("pw1", 0)⟩] 0
        [("username", .str "alice"), ("password", .str "pw1")] =
      (HandlerOutcome.resp 500 [("error", .str "User alice already exists")],
        [⟨"alice", 0, ("pw1", 0)⟩]) ∧
    "User alice already exists" ≠ "An unexpected error occurred." := by
  refine ⟨rfl, by decide, by decide⟩

/-- C3 amended: the 500 responses of the create-account, delete-game and
add-game handlers carry the text of the internal exception, `str(e)`, as
their error body (only the login handler uses a generic message in its
500 branch, and that branch crashes). -/
theorem C3_amended_500_carries_exception_text :
    (∀ (fail : Option String) (accounts : List UserRec) (salt : Nat)
        (body : Body) (u p : String) (e : PyExc),
      jget body "username" = .str u → jget body "password" = .str p →
      u ≠ "" → p ≠ "" →
      User.create_user fail accounts u p salt = .error e →
      create_user fail accounts salt body =
        (HandlerOutcome.resp 500 [("error", .str e.msg)], accounts)) ∧
    (∀ (m : String) (store : List Game) (body : Body) (n : Int),
      jget body "id" = .num n → n ≠ 0 →
      Games.delete_game (some m) store n = .error (.otherError m) ∧
      delete_game (some m) store body =
        (HandlerOutcome.resp 500 [("error", .str m)], store)) ∧
    (∀ (fail : Option String) (catalog : Int → Except String (Option Game))
        (store : List Game) (body : Body) (n : Int) (m : String),
      jget body "id" = .num n → n ≠ 0 → catalog n = .error m →
      add_game fail catalog store body =
        (HandlerOutcome.resp 500 [("error", .str m)], store)) := by
  refine ⟨?_, ?_, ?_⟩
  · intro fail accounts salt body u p e hju hjp hu hp hcreate
    unfold create_user
    rw [if_neg (by simp [hju, hjp, JValue.truthy, hu, hp])]
    simp only [hju, hjp, hcreate]
    rfl
  · intro m store body n hj hn
    refine ⟨rfl, ?_⟩
    unfold delete_game
    rw [hj]
    rw [if_neg (by simp [JValue.truthy, hn])]
    simp only [pyInt]
    rfl
  · intro fail catalog store body n m hj hn hcat
    unfold add_game
    rw [hj]
    rw [if_neg (by simp [JValue.truthy, hn])]
    simp only [pyInt, hcat]
    rfl

/-- Witness for the amended C3 at concrete inputs for each handler. -/
theorem C3_amended_witness :
    create_user (some "database is locked") [] 0
        [("username", .str "alice"), ("password", .str "pw1")] =
      (HandlerOutcome.resp 500 [("error", .str "database is locked")], []) ∧
    delete_game (some "database is locked") [] [("id", .num 1)] =
      (HandlerOutcome.resp 500 [("error", .str "database is locked")], []) ∧
    add_game none (fun _ => Except.error "connection timed out") [] [("id", .num 1)] =
      (HandlerOutcome.resp 500 [("error", .str "connection timed out")], []) := by
  refine ⟨?_, ?_, ?_⟩
  · exact C3_amended_500_carries_exception_text.1 (some "database is locked") [] 0 _
      "alice" "pw1" (.otherError "database is locked")
      (by simp [jget, List.find?]) (by simp [jget, List.find?])
      (by decide) (by decide) rfl
  · exact (C3_amended_500_carries_exception_text.2.1 "database is locked" [] _ 1
      (by simp [jget, List.find?]) (by decide)).2
  · exact C3_amended_500_carries_exception_text.2.2 none
      (fun _ => Except.error "connection timed out") [] _ 1 "connection timed out"
      (by simp [jget, List.find?]) (by decide) rfl

/-- C6 counterexample: two concrete add-game requests with a valid id that
refute the claim's 404-or-persist-and-201 dichotomy.  In the first the
catalog lookup fails (it does not return an empty result) and the answer
is a 500 with nothing persisted; in the second the lookup succeeds but
the insert raises, and the answer is again a 500 with nothing persisted,
not the 201-and-persist the claim requires. -/
theorem C6_counterexample :
    (add_game none (fun _ => Except.error "catalog request failed") []
        [("id", .num 3)] =
      (HandlerOutcome.resp 500 [("error", .str "catalog request failed")], []) ∧
     statusOf (add_game none (fun _ => Except.error "catalog request failed") []
        [("id", .num 3)]).1 ≠ some 201) ∧
    (add_game (some "database is locked") (fun _ => Except.ok (some ⟨10, "Chess", 2⟩)) []
        [("id", .num 10)] =
      (HandlerOutcome.resp 500 [("error", .str "database is locked")], []) ∧
     statusOf (add_game (some "database is locked") (fun _ => Except.ok (some ⟨10, "Chess", 2⟩)) []
        [("id", .num 10)]).1 ≠ some 201) := by
  refine ⟨⟨by decide, by decide⟩, ⟨by decide, by decide⟩⟩

/-- If the cart store accepts an insert, the inserted id was positive and
the new store is the old one with the new row appended. -/
lemma create_game_ok_shape (fail : Option String) (store : List Game)
    (id : Int) (name : String) (price : ℚ) (store' : List Game)
    (h : Games.create_game fail store id name price = .ok store') :
    0 < id ∧ store' = store ++ [⟨id, name, price⟩] := by
  unfold Games.create_game at h
  cases fail with
  | some m => simp at h
  | none =>
    by_cases h1 : id ≤ 0 ∨ price < 0
    · rw [if_pos h1] at h
      simp at h
    · rw [if_neg h1] at h
      by_cases h2 : (store.any fun g => g.id == id) = true
      · rw [if_pos h2] at h
        simp at h
      · rw [if_neg h2] at h
        have h3 : ¬ id ≤ 0 := (not_or.mp h1).1
        simp only [Except.ok.injEq] at h
        exact ⟨by omega, h.symm⟩

/-- C6 amended: for a valid id, and provided the catalog call returns, the
handler replies 404 exactly when the result is empty; on a non-empty
result whose record passes the store's validation and whose insert
succeeds, it persists the catalog-reported record and replies 201; a
non-empty result never yields a 404; a failing catalog call yields a 500
with nothing persisted; and when the lookup succeeds but the insert
raises, the handler replies 500 carrying the exception text (400 when the
store raises a `ValueError`), again persisting nothing. -/
theorem C6_amended_add_game (catalog : Int → Except String (Option Game))
    (store : List Game) (body : Body) (n : Int)
    (hj : jget body "id" = .num n) (hn : n ≠ 0) :
    (catalog n = .ok none →
      ∀ fail : Option String, add_game fail catalog store body =
        (HandlerOutcome.resp 404
          [("error", .str ("id " ++ toString n ++ " does not correspond to a game"))], store)) ∧
    (∀ g : Game, catalog n = .ok (some g) → 0 < g.id → 0 ≤ g.price →
      (store.any fun x => x.id == g.id) = false →
      add_game none catalog store body =
        (HandlerOutcome.resp 201 [("status", .str "game added"), ("game", .str g.name)],
          store ++ [g])) ∧
    (∀ (g : Game) (fail : Option String), catalog n = .ok (some g) →
      statusOf (add_game fail catalog store body).1 ≠ some 404) ∧
    (∀ (m : String) (fail : Option String), catalog n = .error m →
      add_game fail catalog store body =
        (HandlerOutcome.resp 500 [("error", .str m)], store)) ∧
    (∀ (g : Game) (fail : Option String) (m : String), catalog n = .ok (some g) →
      Games.create_game fail store g.id g.name g.price = .error (.otherError m) →
      add_game fail catalog store body =
        (HandlerOutcome.resp 500 [("error", .str m)], store)) ∧
    (∀ (g : Game) (fail : Option String) (m : String), catalog n = .ok (some g) →
      Games.create_game fail store g.id g.name g.price = .error (.valueError m) →
      add_game fail catalog store body =
        (HandlerOutcome.resp 400 [("error", .str m)], store)) := by
  have hne : ¬ ¬ (JValue.num n).truthy = true := by simp [JValue.truthy, hn]
  refine ⟨?_, ?_, ?_, ?_, ?_, ?_⟩
  · intro hcat fail
    unfold add_game
    rw [hj, if_neg hne]
    simp only [pyInt, hcat]
    rfl
  · intro g hcat hid hprice hdup
    unfold add_game
    rw [hj, if_neg hne]
    simp only [pyInt, hcat]
    unfold Games.create_game
    rw [if_neg (by push_neg; exact ⟨hid, hprice⟩)]
    rw [if_neg (by simp [hdup])]
    rfl
  · intro g fail hcat
    unfold add_game
    rw [hj, if_neg hne]
    simp only [pyInt, hcat]
    cases hcg : Games.create_game fail store g.id g.name g.price with
    | ok store' => simp [make_response, pyJsonify, statusOf]
    | error e => cases e <;> simp [make_response, pyJsonify, statusOf]
  · intro m fail hcat
    unfold add_game
    rw [hj, if_neg hne]
    simp only [pyInt, hcat]
    rfl
  · intro g fail m hcat hcg
    unfold add_game
    rw [hj, if_neg hne]
    simp only [pyInt, hcat, hcg]
    rfl
  · intro g fail m hcat hcg
    unfold add_game
    rw [hj, if_neg hne]
    simp only [pyInt, hcat, hcg]
    rfl

/-- Witness for the amended C6: a catalog miss gives 404; a catalog hit is
persisted with the catalog-reported record and gives 201; a catalog hit
whose insert fails gives 500 with the exception text. -/
theorem C6_amended_witness :
    add_game none (fun _ => Except.ok none) [] [("id", .num 3)] =
      (HandlerOutcome.resp 404 [("error", .str "id 3 does not correspond to a game")], []) ∧
    add_game none (fun _ => Except.ok (some ⟨10, "Chess", 999/100⟩)) [] [("id", .num 10)] =
      (HandlerOutcome.resp 201 [("status", .str "game added"), ("game", .str "Chess")],
        [⟨10, "Chess", 999/100⟩]) ∧
    add_game (some "disk I/O error") (fun _ => Except.ok (some ⟨7, "Go", 3⟩)) []
        [("id", .num 7)] =
      (HandlerOutcome.resp 500 [("error", .str "disk I/O error")], []) := by
  refine ⟨?_, ?_, ?_⟩
  · exact (C6_amended_add_game (fun _ => Except.ok none) [] _ 3
      (by simp [jget, List.find?]) (by decide)).1 rfl none
  · exact (C6_amended_add_game (fun _ => Except.ok (some ⟨10, "Chess", 999/100⟩)) [] _ 10
      (by simp [jget, List.find?]) (by decide)).2.1 ⟨10, "Chess", 999/100⟩ rfl
      (by decide) (by norm_num) (by decide)
  · exact (C6_amended_add_game (fun _ => Except.ok (some ⟨7, "Go", 3⟩)) [] _ 7
      (by simp [jget, List.find?]) (by decide)).2.2.2.2.1 ⟨7, "Go", 3⟩
      (some "disk I/O error") "disk I/O error" rfl rfl

/-- C9: both game handlers treat a falsy id (absent/None, 0, or the empty
string) as missing and answer 400 without touching the store; every id the
add handler persists is positive (so no game with id 0 is ever added); and
when the id converts to 0 a delete can never succeed. -/
theorem C9_falsy_id_guard :
    (∀ (fail : Option String) (catalog : Int → Except String (Option Game))
        (store : List Game) (body : Body),
      (jget body "id").truthy = false →
      add_game fail catalog store body =
        (HandlerOutcome.resp 400 [("error", .str "An id must be specified.")], store) ∧
      delete_game fail store body =
        (HandlerOutcome.resp 400 [("error", .str "An id must be specified.")], store)) ∧
    (∀ (fail : Option String) (catalog : Int → Except String (Option Game))
        (store : List Game) (body : Body),
      (∀ g ∈ store, 0 < g.id) →
      (∀ g ∈ (add_game fail catalog store body).2, 0 < g.id)) ∧
    (∀ (fail : Option String) (store : List Game) (body : Body),
      (∀ g ∈ store, 0 < g.id) →
      pyInt (jget body "id") = .ok 0 →
      statusOf (delete_game fail store body).1 ≠ some 200) := by
  refine ⟨?_, ?_, ?_⟩
  · intro fail catalog store body ht
    cases hidv : jget body "id" with
    | null =>
      constructor
      · unfold add_game
        rw [hidv, if_pos (by decide)]
        rfl
      · unfold delete_game
        rw [hidv, if_pos (by decide)]
        unfold deleteValueErrorBranch
        rw [if_neg (by decide)]
        rfl
    | str s =>
      rw [hidv] at ht
      simp [JValue.truthy] at ht
      subst ht
      constructor
      · unfold add_game
        rw [hidv, if_pos (by decide)]
        rfl
      · unfold delete_game
        rw [hidv, if_pos (by decide)]
        unfold deleteValueErrorBranch
        rw [if_neg (by decide)]
        rfl
    | num n =>
      rw [hidv] at ht
      simp [JValue.truthy] at ht
      subst ht
      constructor
      · unfold add_game
        rw [hidv, if_pos (by decide)]
        rfl
      · unfold delete_game
        rw [hidv, if_pos (by decide)]
        unfold deleteValueErrorBranch
        rw [if_neg (by decide)]
        rfl
  · intro fail catalog store body hpos
    by_cases ht : (jget body "id").truthy = true
    · unfold add_game
      rw [if_neg (by simp [ht])]
      split
      all_goals try simpa using hpos
      split
      all_goals try simpa using hpos
      split
      all_goals try simpa using hpos
      rename_i g hcat x2 store2 hcg
      obtain ⟨hgid, hst⟩ := create_game_ok_shape fail store g.id g.name g.price store2 hcg
      subst hst
      intro x hx
      simp only [List.mem_append, List.mem_singleton] at hx
      rcases hx with hx | hx
      · exact hpos x hx
      · subst hx
        simpa using hgid
    · unfold add_game
      rw [if_pos (by simp [ht])]
      simpa using hpos
  · intro fail store body hpos hpi0
    cases hidv : jget body "id" with
    | null =>
      rw [hidv] at hpi0
      simp [pyInt] at hpi0
    | num n =>
      rw [hidv] at hpi0
      simp only [pyInt, Except.ok.injEq] at hpi0
      subst hpi0
      unfold delete_game
      rw [hidv, if_pos (by decide)]
      unfold deleteValueErrorBranch
      rw [if_neg (by decide)]
      simp [make_response, pyJsonify, statusOf]
    | str s =>
      rw [hidv] at hpi0
      by_cases hs : s = ""
      · subst hs
        rw [show pyInt (JValue.str "") = .error (.valueError ("invalid literal for int() with base 10: '" ++ "" ++ "'")) from rfl] at hpi0
        exact absurd hpi0 (by simp)
      · unfold delete_game
        rw [hidv, if_neg (by simp [JValue.truthy, hs])]
        rw [hpi0]
        cases fail with
        | some m => simp [Games.delete_game, make_response, pyJsonify, statusOf]
        | none =>
          have hany : (store.any fun g => g.id == (0 : Int)) = false := by
            rw [List.any_eq_false]
            intro x hx
            have hx0 := hpos x hx
            simp only [beq_iff_eq]
            omega
          simp [Games.delete_game, hany, deleteValueErrorBranch, make_response, pyJsonify, statusOf]

/-- Witness for C9: id 0 is refused with a 400 by both handlers, and a
delete with the truthy string id "0" cannot succeed against a cart whose
ids are positive. -/
theorem C9_witness :
    add_game none (fun _ => Except.ok none) [⟨1, "Chess", 2⟩] [("id", .num 0)] =
      (HandlerOutcome.resp 400 [("error", .str "An id must be specified.")], [⟨1, "Chess", 2⟩]) ∧
    delete_game none [⟨1, "Chess", 2⟩] [("id", .num 0)] =
      (HandlerOutcome.resp 400 [("error", .str "An id must be specified.")], [⟨1, "Chess", 2⟩]) ∧
    statusOf (delete_game none [⟨1, "Chess", 2⟩] [("id", .str "0")]).1 ≠ some 200 := by
  refine ⟨?_, ?_, ?_⟩
  · exact (C9_falsy_id_guard.1 none (fun _ => Except.ok none) [⟨1, "Chess", 2⟩]
      [("id", .num 0)] (by decide)).1
  · exact (C9_falsy_id_guard.1 none (fun _ => Except.ok none) [⟨1, "Chess", 2⟩]
      [("id", .num 0)] (by decide)).2
  · have hjv : jget [("id", JValue.str "0")] "id" = JValue.str "0" := by
      simp [jget, List.find?]
    have hpi : pyInt (jget [("id", JValue.str "0")] "id") = Except.ok 0 := by
      rw [hjv]
      rfl
    exact C9_falsy_id_guard.2.2 none [⟨1, "Chess", 2⟩] [("id", .str "0")]
      (by decide) hpi
